import Mathlib

/-!
Verification of the JWT verification core of the widget-example repository
(`widget/backend/src/utils/jwt-verifier.ts`, with configuration from
`shared/src/auth-constants.ts` and types from `shared/src/types.ts`).

The TypeScript source is embedded shallowly:

* The module-level mutable `jwksCache` becomes explicit state passing: every
  stateful operation takes the cache before the call and returns the cache
  after the call.
* `Date.now()` (milliseconds) becomes an explicit `nowMs : Int` argument; the
  `jsonwebtoken` clock timestamp is `Math.floor(Date.now() / 1000)`, modelled
  with `Int.ediv nowMs 1000`.
* The single network effect (`fetch(AUTH_CONFIG.JWKS_URI)` followed by
  `response.json()`) becomes an explicit `FetchOutcome` argument describing
  what the network would deliver if the fetch were performed; each operation
  additionally returns how many fetches it performed (always 0 or 1).
* Thrown JavaScript errors become `Except` error values carrying the thrown
  message, since the calling code dispatches on the message text.
* RSA-PKCS1v15/SHA-256 signatures are modelled symbolically: a signature
  value records which key material signed which header/payload; verification
  against a public key succeeds exactly when the key material matches and the
  signed content is the content being verified.
-/

set_option maxRecDepth 100000

namespace JwtVerifier

/-- `AUTH_CONFIG` from `shared/src/auth-constants.ts` (the fields the
verifier reads). -/
structure AuthConfig where
  ISSUER : String
  WIDGET_API_AUDIENCE : String
  ALGORITHM : String
  JWKS_URI : String
deriving DecidableEq

def AUTH_CONFIG : AuthConfig :=
  { ISSUER := "https://demo-app.auth.local/"
    WIDGET_API_AUDIENCE := "https://widget-api.local/"
    ALGORITHM := "RS256"
    JWKS_URI := "http://localhost:3002/.well-known/jwks.json" }

/-- `RSAPublicJWK` from `shared/src/types.ts`: one RSA public key of a JWKS.
`n` and `e` are the base64url-encoded modulus and exponent; together they
identify the underlying key pair. -/
structure RSAPublicJWK where
  kty : String
  use : String
  kid : String
  alg : String
  n : String
  e : String
deriving DecidableEq

/-- `JWKS` from `shared/src/types.ts`. -/
structure JWKS where
  keys : List RSAPublicJWK
deriving DecidableEq

/-- A PEM-encoded RSA public key, as produced by the `jwk-to-pem` package:
a re-encoding of the same modulus and exponent. -/
structure PemKey where
  n : String
  e : String
deriving DecidableEq

/-- `jwkToPem` from the `jwk-to-pem` package: converts a JWK to PEM form,
preserving the key material. -/
def jwkToPem (key : RSAPublicJWK) : PemKey :=
  { n := key.n, e := key.e }

/-- The `JWKSCache` interface of `jwt-verifier.ts` (lines 25-29). -/
structure JWKSCache where
  jwks : Option JWKS
  fetchedAt : Int
  ttlMs : Int
deriving DecidableEq

/-- The initial value of the module-level `jwksCache` (lines 31-35):
no key set, `fetchedAt = 0`, one hour TTL in milliseconds. -/
def initialJwksCache : JWKSCache :=
  { jwks := none, fetchedAt := 0, ttlMs := 60 * 60 * 1000 }

deriving instance DecidableEq for Except

/-- What one network GET of `AUTH_CONFIG.JWKS_URI` would deliver.
`response ok status statusText body` models a completed HTTP exchange:
`ok`/`status`/`statusText` are the fields of the `fetch` Response, and
`body` is the result of `response.json()` — `Except.error msg` when the
body is not valid JSON (the promise rejects with message `msg`), and
`Except.ok jwks` when it parses (the code casts the parsed value
`as JWKS` without validating its shape, so a parsed body is taken to be a
key set). `networkError msg` models `fetch` itself rejecting. -/
inductive FetchOutcome where
  | response (ok : Bool) (status : Nat) (statusText : String) (body : Except String JWKS)
  | networkError (msg : String)
deriving DecidableEq

/-- The fetch-and-cache part of `fetchJWKS` (lines 54-69), reached when the
cached value cannot be served: performs the network fetch, throws
(`Except.error`) on network error, non-ok status, or JSON parse failure,
and updates both cache fields only on success. Result: (thrown message or
key set, cache after the call, number of fetches performed). -/
def fetchFresh (cache : JWKSCache) (nowMs : Int) (net : FetchOutcome) :
    Except String JWKS × JWKSCache × Nat :=
  match net with
  | .networkError msg => (Except.error msg, cache, 1)
  | .response ok status statusText body =>
    if !ok then
      (Except.error ("Failed to fetch JWKS: " ++ toString status ++ " " ++ statusText),
        cache, 1)
    else
      match body with
      | .error msg => (Except.error msg, cache, 1)
      | .ok jwks =>
        (Except.ok jwks, { cache with jwks := some jwks, fetchedAt := nowMs }, 1)

/-- `fetchJWKS` (lines 46-70): serve the cached key set when one is present
and `now - fetchedAt < ttlMs` (the JS guard `jwksCache.jwks && ...`, where a
`null` cache is falsy), otherwise fetch. -/
def fetchJWKS (cache : JWKSCache) (nowMs : Int) (net : FetchOutcome) :
    Except String JWKS × JWKSCache × Nat :=
  match cache.jwks with
  | some jwks =>
    if nowMs - cache.fetchedAt < cache.ttlMs then
      (Except.ok jwks, cache, 0)
    else
      fetchFresh cache nowMs net
  | none => fetchFresh cache nowMs net

/-- `getPublicKey` (lines 78-89): fetch (or reuse) the key set, look up the
first key whose `kid` matches, convert it to PEM; a missing `kid` throws
the `not found` message, and an error from `fetchJWKS` propagates. -/
def getPublicKey (kid : String) (cache : JWKSCache) (nowMs : Int) (net : FetchOutcome) :
    Except String PemKey × JWKSCache × Nat :=
  match fetchJWKS cache nowMs net with
  | (Except.error msg, c, fc) => (Except.error msg, c, fc)
  | (Except.ok jwks, c, fc) =>
    match jwks.keys.find? (fun k => k.kid = kid) with
    | none =>
      (Except.error ("Key with kid \"" ++ kid ++ "\" not found in JWKS"), c, fc)
    | some key => (Except.ok (jwkToPem key), c, fc)

/-!
Model of the `jsonwebtoken` npm package (v9), the library `jwt-verifier.ts`
delegates decoding, signature verification and claims validation to. The
library is a dependency of the repository and its code is not part of it;
the definitions below embed its documented behaviour, specialized to the
one call site in `verifyAccessToken`, which always passes
`algorithms: [AUTH_CONFIG.ALGORITHM]`, `issuer: AUTH_CONFIG.ISSUER` and
`audience: AUTH_CONFIG.WIDGET_API_AUDIENCE`. The library validates, in
order: the declared header algorithm against the whitelist
(`JsonWebTokenError "invalid algorithm"`), the signature
(`JsonWebTokenError "invalid signature"`), then the payload claims `nbf`
(`NotBeforeError "jwt not active"`), `exp` (`TokenExpiredError
"jwt expired"`, only when `exp` is present, using
`clockTimestamp >= exp + clockTolerance` with tolerance 0), `aud`
(`JsonWebTokenError "jwt audience invalid. expected: ..."`), and `iss`
(`JsonWebTokenError "jwt issuer invalid. expected: ..."`), returning the
decoded payload on success. The first failing check wins.
-/

/-- A decoded JWT header, per the `TokenHeader` shape of the spec and the
`JwtHeader` type of `jsonwebtoken` (`alg`, `typ` and `kid` all optional;
`kid`, when present, restricted to JSON strings as in the declared types). -/
structure TokenHeader where
  alg : Option String
  typ : Option String
  kid : Option String
deriving DecidableEq

/-- The `aud` claim of a payload: absent, a single string, or an array of
strings (the `string | string[]` of `AccessTokenClaims`). -/
inductive AudClaim where
  | absent : AudClaim
  | one (s : String) : AudClaim
  | many (vals : List String) : AudClaim
deriving DecidableEq

/-- A decoded JWT payload: the claims the verifier inspects (`iss`, `aud`,
`exp`, and the `nbf` claim `jsonwebtoken` also validates), the remaining
`AccessTokenClaims` fields, and arbitrary further fields carried as raw
JSON text in `extra` — the verifier never looks at them. -/
structure TokenPayload where
  iss : Option String
  sub : Option String
  aud : AudClaim
  exp : Option Int
  iat : Option Int
  nbf : Option Int
  scope : Option String
  azp : Option String
  extra : List (String × String)
deriving DecidableEq

/-- Symbolic model of the third JWT segment. `rs256 n e header payload` is
the RSA-PKCS1v15/SHA-256 signature produced with the private key of the
pair whose public material is `(n, e)` over the serialized
`header.payload`; `otherAlg` is a signature produced by some other
algorithm; `garbage` is any byte string that is not a valid signature;
`empty` is a missing third segment. -/
inductive JwsSignature where
  | rs256 (n e : String) (header : TokenHeader) (payload : TokenPayload) : JwsSignature
  | otherAlg (alg : String) (bits : String) : JwsSignature
  | garbage (bits : String) : JwsSignature
  | empty : JwsSignature
deriving DecidableEq

/-- RS256 signature verification against a PEM public key: succeeds exactly
when the signature was produced by the matching key pair over exactly the
header and payload being verified. -/
def rs256Verify (pem : PemKey) (h : TokenHeader) (p : TokenPayload) :
    JwsSignature → Bool
  | .rs256 n e sh sp => decide (n = pem.n ∧ e = pem.e ∧ sh = h ∧ sp = p)
  | _ => false

/-- A bearer-token string, at the granularity the verifier observes it:
either a structurally valid JWS compact serialization carrying a decoded
header, a decoded payload and a signature value, or a string on which
`jws.decode` fails (wrong segment shape, undecodable or unparseable
header), which `jwt.decode` maps to `null`. -/
inductive Token where
  | jws (header : TokenHeader) (payload : TokenPayload) (sig : JwsSignature) : Token
  | unparseable (raw : String) : Token
deriving DecidableEq

/-- The base64url alphabet of the `jws` package segment regex. -/
def isBase64UrlChar (c : Char) : Bool :=
  c.isAlpha || c.isDigit || decide (c = '-') || decide (c = '_')

/-- Split a character list on `.` (as `String.prototype.split` would). -/
def splitOnDot : List Char → List (List Char)
  | [] => [[]]
  | c :: cs =>
    let rest := splitOnDot cs
    if c = '.' then [] :: rest
    else
      match rest with
      | seg :: segs => (c :: seg) :: segs
      | [] => [[c]]

/-- The structural test of the `jws` package
(`JWS_REGEX = ^[a-zA-Z0-9-_]+?[.][a-zA-Z0-9-_]+?[.]([a-zA-Z0-9-_]+)?$`):
exactly three dot-separated segments of base64url characters, the first
two nonempty. A string failing it decodes to `null`, i.e. enters the model
as `Token.unparseable`. -/
def jwsShapeOk (s : String) : Bool :=
  match splitOnDot s.data with
  | [h, p, g] =>
    decide (h ≠ []) && h.all isBase64UrlChar &&
    decide (p ≠ []) && p.all isBase64UrlChar &&
    g.all isBase64UrlChar
  | _ => false

/-- `jwt.decode` with the complete option (line 129): `none` models
the `null` result on an undecodable string (with `complete: true` the
result is never a plain string, so the test on line 131 of the source,
which also rejects a string-valued decode result, collapses to this);
otherwise the decoded header and payload. -/
def jwtDecode : Token → Option (TokenHeader × TokenPayload)
  | .jws h p _ => some (h, p)
  | .unparseable _ => none

/-- Is the first list a prefix of the second (character-wise)? -/
def charsPrefixOf : List Char → List Char → Bool
  | [], _ => true
  | _ :: _, [] => false
  | a :: as, b :: bs => decide (a = b) && charsPrefixOf as bs

/-- Does `hay` contain `needle` as a contiguous substring? -/
def hasSubstrChars : List Char → List Char → Bool
  | [], needle => charsPrefixOf needle []
  | c :: rest, needle => charsPrefixOf needle (c :: rest) || hasSubstrChars rest needle

/-- JavaScript `hay.includes(needle)` (case-sensitive substring test). -/
def jsIncludes (hay needle : String) : Bool :=
  hasSubstrChars hay.data needle.data

/-- JavaScript `s.toLowerCase()` for the ASCII strings involved here. -/
def jsToLower (s : String) : String :=
  ⟨s.data.map Char.toLower⟩

/-- The two exception classes `verifyAccessToken` distinguishes among the
errors `jwt.verify` throws: `jwt.TokenExpiredError` and every other
`jwt.JsonWebTokenError` (including `NotBeforeError`), each carrying its
message. -/
inductive JwtVerifyError where
  | tokenExpired (msg : String) : JwtVerifyError
  | jwtError (msg : String) : JwtVerifyError
deriving DecidableEq

/-- Does the `aud` claim contain the expected audience? (`jsonwebtoken`
wraps a non-array `aud` in a singleton array and compares each entry with
`===`; an absent `aud` never matches a string audience option.) -/
def audMatches (aud : AudClaim) (audience : String) : Bool :=
  match aud with
  | .absent => false
  | .one s => decide (s = audience)
  | .many vals => vals.contains audience

/-- The `nbf` test of `jwt.verify` with `clockTolerance` 0: rejects when
`nbf` is present and lies strictly in the future; an absent `nbf` is not
checked. -/
def nbfRejects (p : TokenPayload) (clockTimestamp : Int) : Bool :=
  match p.nbf with
  | some nbf => decide (clockTimestamp < nbf)
  | none => false

/-- The `exp` test of `jwt.verify` with `clockTolerance` 0: rejects when
`exp` is present and `clockTimestamp >= exp`; an absent `exp` is not
checked. -/
def expRejects (p : TokenPayload) (clockTimestamp : Int) : Bool :=
  match p.exp with
  | some exp => decide (exp ≤ clockTimestamp)
  | none => false

/-- The payload validations of `jwt.verify`, in the order the library
performs them —
`nbf`, `exp`, `aud`, `iss` — with `clockTolerance` 0; `nbf` and `exp` are
only checked when present. -/
def validateClaims (p : TokenPayload) (issuer audience : String)
    (clockTimestamp : Int) : Except JwtVerifyError TokenPayload :=
  if nbfRejects p clockTimestamp then
    Except.error (.jwtError "jwt not active")
  else if expRejects p clockTimestamp then
    Except.error (.tokenExpired "jwt expired")
  else if !audMatches p.aud audience then
    Except.error (.jwtError ("jwt audience invalid. expected: " ++ audience))
  else if p.iss ≠ some issuer then
    Except.error (.jwtError ("jwt issuer invalid. expected: " ++ issuer))
  else
    Except.ok p

/-- `jwt.verify(token, publicKey, ...)` as called on line 166, with the
whitelist `[AUTH_CONFIG.ALGORITHM]`: reject a declared algorithm outside
the whitelist before any cryptography, then verify the RS256 signature
(the only whitelisted algorithm), then validate the payload claims. -/
def jwtVerify (t : Token) (pem : PemKey) (issuer audience : String)
    (clockTimestamp : Int) : Except JwtVerifyError TokenPayload :=
  match t with
  | .unparseable _ => Except.error (.jwtError "jwt malformed")
  | .jws h p sig =>
    if h.alg ≠ some AUTH_CONFIG.ALGORITHM then
      Except.error (.jwtError "invalid algorithm")
    else if !(rs256Verify pem h p sig) then
      Except.error (.jwtError "invalid signature")
    else
      validateClaims p issuer audience clockTimestamp

/-- The `code` values of `TokenVerificationError` (lines 97-105). -/
inductive VerifyErrorCode where
  | TOKEN_MISSING : VerifyErrorCode
  | TOKEN_MALFORMED : VerifyErrorCode
  | TOKEN_EXPIRED : VerifyErrorCode
  | TOKEN_INVALID_SIGNATURE : VerifyErrorCode
  | TOKEN_INVALID_ISSUER : VerifyErrorCode
  | TOKEN_INVALID_AUDIENCE : VerifyErrorCode
  | JWKS_FETCH_FAILED : VerifyErrorCode
  | KEY_NOT_FOUND : VerifyErrorCode
deriving DecidableEq

/-- `TokenVerificationError` (lines 94-110): message plus code. -/
structure TokenVerificationError where
  message : String
  code : VerifyErrorCode
deriving DecidableEq

/-- The `catch` around `getPublicKey` (lines 151-162): a thrown error whose
message contains the substring `not found` becomes `KEY_NOT_FOUND`, any
other becomes `JWKS_FETCH_FAILED`. -/
def classifyKeyError (kid : String) (msg : String) : TokenVerificationError :=
  if jsIncludes msg "not found" then
    { message := "Key \"" ++ kid ++ "\" not found in JWKS", code := .KEY_NOT_FOUND }
  else
    { message := "Failed to fetch JWKS", code := .JWKS_FETCH_FAILED }

/-- The `catch` around `jwt.verify` (lines 173-209): `TokenExpiredError`
becomes `TOKEN_EXPIRED`; otherwise the lowercased message is searched for
`issuer`, then `audience`, then `signature`; anything left falls through
to `TOKEN_INVALID_SIGNATURE`. -/
def classifyVerifyError : JwtVerifyError → TokenVerificationError
  | .tokenExpired _ => { message := "Token has expired", code := .TOKEN_EXPIRED }
  | .jwtError msg =>
    let m := jsToLower msg
    if jsIncludes m "issuer" then
      { message := "Invalid issuer. Expected: " ++ AUTH_CONFIG.ISSUER
        code := .TOKEN_INVALID_ISSUER }
    else if jsIncludes m "audience" then
      { message := "Invalid audience. Expected: " ++ AUTH_CONFIG.WIDGET_API_AUDIENCE
        code := .TOKEN_INVALID_AUDIENCE }
    else if jsIncludes m "signature" then
      { message := "Invalid token signature", code := .TOKEN_INVALID_SIGNATURE }
    else
      { message := "Token verification failed: " ++ msg
        code := .TOKEN_INVALID_SIGNATURE }

/-- JavaScript truthiness of the destructured `kid` (line 140): `!kid` is
true when `kid` is absent and also when it is the empty string. -/
def isFalsyKid : Option String → Bool
  | none => true
  | some s => decide (s = "")

/-- `verifyAccessToken` (lines 127-211): decode, reject a falsy `kid`,
resolve the public key (classifying a thrown message), verify signature
and claims with `jwt.verify` (classifying a thrown error). Result:
(claims or `TokenVerificationError`, cache after the call, number of JWKS
fetches performed). The library reads its clock as
`Math.floor(Date.now() / 1000)`, modelled by `Int.ediv nowMs 1000`. -/
def verifyAccessToken (token : Token) (cache : JWKSCache) (nowMs : Int)
    (net : FetchOutcome) :
    Except TokenVerificationError TokenPayload × JWKSCache × Nat :=
  match jwtDecode token with
  | none =>
    (Except.error { message := "Token is malformed or cannot be decoded"
                    code := .TOKEN_MALFORMED }, cache, 0)
  | some (header, _) =>
    if isFalsyKid header.kid then
      (Except.error { message := "Token header missing \"kid\" (key ID)"
                      code := .TOKEN_MALFORMED }, cache, 0)
    else
      let kid := header.kid.getD ""
      match getPublicKey kid cache nowMs net with
      | (Except.error msg, c, fc) => (Except.error (classifyKeyError kid msg), c, fc)
      | (Except.ok pem, c, fc) =>
        match jwtVerify token pem AUTH_CONFIG.ISSUER AUTH_CONFIG.WIDGET_API_AUDIENCE
            (Int.ediv nowMs 1000) with
        | Except.ok p => (Except.ok p, c, fc)
        | Except.error e => (Except.error (classifyVerifyError e), c, fc)

/-!
Concrete fixtures, used by the witnesses and counterexamples below.
`DEMO_JWK` and `DEMO_JWKS` are the demo key set from
`shared/src/keys/jwks.ts`; the remaining fixtures are concrete instants,
caches, headers and payloads. `tNow` is a millisecond clock reading whose
second-granularity counterpart is `tNowS`.
-/

def DEMO_JWK : RSAPublicJWK :=
  { kty := "RSA"
    n := "u36ru-_14oXJ85d6pltU3J83so-om1fZCRH0xcL62-PK70pDIkZcizLsKYwKeriE54FVYCdi03W4H3oDhgjYg-TB2pZ-YwmLSvEosEAb5F12DBMOPGtMMBagy0JIcJ_Zkn_6GiqtJ4mZq5e9sLwwzyFFNOtVwkjYwCpT2JgC9pUhCpHNvmAuagtpnFgdy8A0pLoOqgfdzYIhvkiLciNnEHRXhL-1jshpQTSRvb6tyBSvv9GmTLa1MJCTqE2nRAaovPNgnhwztT2ZexlIA45waIIBDkgcBZ-KR6dynon6unQsMnExEmcUEsb9_xzEpMQwZXnbH7gy1sr8K8VhxkZNXQ"
    e := "AQAB"
    kid := "demo-key-1"
    use := "sig"
    alg := "RS256" }

def DEMO_JWKS : JWKS := { keys := [DEMO_JWK] }

def tNow : Int := 1700000000000

def tNowS : Int := 1700000000

/-- A cache holding the demo key set, fetched just now (not stale). -/
def freshCache : JWKSCache :=
  { jwks := some DEMO_JWKS, fetchedAt := tNow, ttlMs := 60 * 60 * 1000 }

/-- A cache holding the demo key set, fetched two hours ago (stale). -/
def staleCache : JWKSCache :=
  { jwks := some DEMO_JWKS, fetchedAt := tNow - 7200000, ttlMs := 60 * 60 * 1000 }

def demoHeader : TokenHeader :=
  { alg := some "RS256", typ := some "JWT", kid := some "demo-key-1" }

/-- A payload satisfying every configured check at instant `tNowS`. -/
def validPayload : TokenPayload :=
  { iss := some AUTH_CONFIG.ISSUER
    sub := some "auth0|demo-user"
    aud := .one AUTH_CONFIG.WIDGET_API_AUDIENCE
    exp := some (tNowS + 3600)
    iat := some tNowS
    nbf := none
    scope := some "read:feedback write:feedback"
    azp := none
    extra := [("custom_claim", "\"opaque\"")] }

/-- The signature the demo private key produces over `h.p`. -/
def signedDemo (h : TokenHeader) (p : TokenPayload) : JwsSignature :=
  .rs256 DEMO_JWK.n DEMO_JWK.e h p

def netDown : FetchOutcome := .networkError "fetch failed"

def netOkDemo : FetchOutcome := .response true 200 "OK" (Except.ok DEMO_JWKS)

/-!
Helper definitions and lemmas for the claim theorems.
-/

/-- The error code of a verification result, if it is an error. -/
def resultCode : Except TokenVerificationError TokenPayload → Option VerifyErrorCode
  | Except.error err => some err.code
  | Except.ok _ => none

/-- The cache-service guard of `fetchJWKS` (line 50): a key set is present
and `now - fetchedAt < ttlMs`. -/
def cacheIsFresh (cache : JWKSCache) (nowMs : Int) : Bool :=
  match cache.jwks with
  | some _ => decide (nowMs - cache.fetchedAt < cache.ttlMs)
  | none => false

/-- Does a decoded token carry a falsy `kid`? -/
def kidFalsy : Token → Bool
  | .jws h _ _ => isFalsyKid h.kid
  | .unparseable _ => false

/-!
Further concrete fixtures for the counterexamples and witnesses.
-/

/-- A header declaring HS256 instead of RS256. -/
def hs256Header : TokenHeader := { demoHeader with alg := some "HS256" }

/-- A header whose `kid` is present but names no key in the demo set. -/
def otherKidHeader : TokenHeader := { demoHeader with kid := some "other-key" }

/-- A header whose `kid` is present and a string, but empty (falsy). -/
def emptyKidHeader : TokenHeader := { demoHeader with kid := some "" }

/-- An otherwise valid payload whose `nbf` lies 100 s in the future. -/
def nbfPayload : TokenPayload := { validPayload with nbf := some (tNowS + 100) }

/-- An otherwise valid payload carrying no `exp` claim at all. -/
def noExpPayload : TokenPayload := { validPayload with exp := none }

/-- An otherwise valid payload that expired one second ago. -/
def expM1Payload : TokenPayload := { validPayload with exp := some (tNowS - 1) }

/-- An otherwise valid payload with wrong issuer AND wrong audience. -/
def bothWrongPayload : TokenPayload :=
  { validPayload with
      iss := some "https://evil.example/"
      aud := .one "https://other-api.local/" }

lemma fetchJWKS_of_fresh (cache : JWKSCache) (nowMs : Int) (net : FetchOutcome)
    (jwks : JWKS) (hj : cache.jwks = some jwks)
    (ht : nowMs - cache.fetchedAt < cache.ttlMs) :
    fetchJWKS cache nowMs net = (Except.ok jwks, cache, 0) := by
  unfold fetchJWKS
  rw [hj]
  simp [ht]

lemma fetchJWKS_of_not_fresh (cache : JWKSCache) (nowMs : Int) (net : FetchOutcome)
    (hs : cacheIsFresh cache nowMs = false) :
    fetchJWKS cache nowMs net = fetchFresh cache nowMs net := by
  unfold fetchJWKS
  unfold cacheIsFresh at hs
  cases hj : cache.jwks with
  | none => rfl
  | some jwks =>
    rw [hj] at hs
    simp at hs
    simp [hs]

/-- A failing fetch attempt returns the thrown message, leaves every cache
field unchanged, and counts one fetch. -/
lemma fetchFresh_error (cache : JWKSCache) (nowMs : Int) (net : FetchOutcome)
    (m : String) (he : (fetchFresh cache nowMs net).1 = Except.error m) :
    fetchFresh cache nowMs net = (Except.error m, cache, 1) := by
  unfold fetchFresh at *
  cases net with
  | networkError msg => simp_all
  | response ok status statusText body =>
    cases ok with
    | false => simp_all
    | true =>
      cases body with
      | error msg => simp_all
      | ok jwks => simp_all

/-- A successful fetch attempt returns the fetched set, replaces the whole
cached snapshot (key set and `fetchedAt` together), and counts one fetch. -/
lemma fetchFresh_ok (cache : JWKSCache) (nowMs : Int) (net : FetchOutcome)
    (jwks : JWKS) (ho : (fetchFresh cache nowMs net).1 = Except.ok jwks) :
    fetchFresh cache nowMs net =
      (Except.ok jwks, { cache with jwks := some jwks, fetchedAt := nowMs }, 1) := by
  unfold fetchFresh at *
  cases net with
  | networkError msg => simp_all
  | response ok status statusText body =>
    cases ok with
    | false => simp_all
    | true =>
      cases body with
      | error msg => simp_all
      | ok j => simp_all

/-- Every call performs zero fetches when the cache is fresh and exactly
one otherwise. -/
lemma getPublicKey_fetchCount (kid : String) (cache : JWKSCache) (nowMs : Int)
    (net : FetchOutcome) :
    (getPublicKey kid cache nowMs net).2.2 =
      if cacheIsFresh cache nowMs then 0 else 1 := by
  unfold getPublicKey
  cases hf : cacheIsFresh cache nowMs with
  | true =>
    unfold cacheIsFresh at hf
    cases hj : cache.jwks with
    | none => rw [hj] at hf; simp at hf
    | some jwks =>
      rw [hj] at hf
      simp at hf
      rw [fetchJWKS_of_fresh cache nowMs net jwks hj hf]
      cases hfind : jwks.keys.find? (fun k => k.kid = kid) <;> simp [hfind]
  | false =>
    rw [fetchJWKS_of_not_fresh cache nowMs net hf]
    simp
    cases hq : (fetchFresh cache nowMs net).1 with
    | error m =>
      rw [fetchFresh_error cache nowMs net m hq]
    | ok jwks =>
      rw [fetchFresh_ok cache nowMs net jwks hq]
      cases hfind : jwks.keys.find? (fun k => k.kid = kid) <;> simp [hfind]

lemma isFalsyKid_false {kid : String} (hk : kid ≠ "") :
    isFalsyKid (some kid) = false := by
  simp [isFalsyKid, hk]

/-- Unfolding of `verifyAccessToken` on a decodable token with a truthy
`kid`. -/
lemma verifyAccessToken_jws (h : TokenHeader) (p : TokenPayload)
    (sig : JwsSignature) (cache : JWKSCache) (nowMs : Int) (net : FetchOutcome)
    (hfk : isFalsyKid h.kid = false) :
    verifyAccessToken (.jws h p sig) cache nowMs net =
      (match getPublicKey (h.kid.getD "") cache nowMs net with
       | (Except.error msg, c, fc) =>
         (Except.error (classifyKeyError (h.kid.getD "") msg), c, fc)
       | (Except.ok pem, c, fc) =>
         match jwtVerify (.jws h p sig) pem AUTH_CONFIG.ISSUER
             AUTH_CONFIG.WIDGET_API_AUDIENCE (Int.ediv nowMs 1000) with
         | Except.ok q => (Except.ok q, c, fc)
         | Except.error e => (Except.error (classifyVerifyError e), c, fc)) := by
  unfold verifyAccessToken
  simp [jwtDecode, hfk]

/-- `jwt.verify` on a token whose declared algorithm is the whitelisted
RS256 and whose signature verifies reduces to the claims validation. -/
lemma jwtVerify_valid_sig (h : TokenHeader) (p : TokenPayload)
    (sig : JwsSignature) (pem : PemKey) (issuer audience : String) (clockT : Int)
    (halg : h.alg = some "RS256") (hsig : rs256Verify pem h p sig = true) :
    jwtVerify (.jws h p sig) pem issuer audience clockT =
      validateClaims p issuer audience clockT := by
  unfold jwtVerify
  simp [AUTH_CONFIG, halg, hsig]

lemma jwtVerify_bad_alg (h : TokenHeader) (p : TokenPayload)
    (sig : JwsSignature) (pem : PemKey) (issuer audience : String) (clockT : Int)
    (halg : h.alg ≠ some "RS256") :
    jwtVerify (.jws h p sig) pem issuer audience clockT =
      Except.error (.jwtError "invalid algorithm") := by
  unfold jwtVerify
  simp [AUTH_CONFIG, halg]

lemma jwtVerify_bad_sig (h : TokenHeader) (p : TokenPayload)
    (sig : JwsSignature) (pem : PemKey) (issuer audience : String) (clockT : Int)
    (halg : h.alg = some "RS256") (hsig : rs256Verify pem h p sig = false) :
    jwtVerify (.jws h p sig) pem issuer audience clockT =
      Except.error (.jwtError "invalid signature") := by
  unfold jwtVerify
  simp [AUTH_CONFIG, halg, hsig]

lemma validateClaims_ok (p : TokenPayload) (issuer audience : String) (clockT : Int)
    (hnbf : nbfRejects p clockT = false) (hexp : expRejects p clockT = false)
    (haud : audMatches p.aud audience = true) (hiss : p.iss = some issuer) :
    validateClaims p issuer audience clockT = Except.ok p := by
  unfold validateClaims
  simp [hnbf, hexp, haud, hiss]

lemma validateClaims_expired (p : TokenPayload) (issuer audience : String) (clockT : Int)
    (hnbf : nbfRejects p clockT = false) (hexp : expRejects p clockT = true) :
    validateClaims p issuer audience clockT =
      Except.error (.tokenExpired "jwt expired") := by
  unfold validateClaims
  simp [hnbf, hexp]

lemma validateClaims_bad_aud (p : TokenPayload) (issuer audience : String) (clockT : Int)
    (hnbf : nbfRejects p clockT = false) (hexp : expRejects p clockT = false)
    (haud : audMatches p.aud audience = false) :
    validateClaims p issuer audience clockT =
      Except.error (.jwtError ("jwt audience invalid. expected: " ++ audience)) := by
  unfold validateClaims
  simp [hnbf, hexp, haud]

lemma validateClaims_bad_iss (p : TokenPayload) (issuer audience : String) (clockT : Int)
    (hnbf : nbfRejects p clockT = false) (hexp : expRejects p clockT = false)
    (haud : audMatches p.aud audience = true) (hiss : p.iss ≠ some issuer) :
    validateClaims p issuer audience clockT =
      Except.error (.jwtError ("jwt issuer invalid. expected: " ++ issuer)) := by
  unfold validateClaims
  simp [hnbf, hexp, haud, hiss]

/-- Appending any prefix preserves a substring hit. -/
lemma hasSubstrChars_append_right (a b needle : List Char)
    (hb : hasSubstrChars b needle = true) : hasSubstrChars (a ++ b) needle = true := by
  induction a with
  | nil => simpa
  | cons c cs ih =>
    show (charsPrefixOf needle (c :: (cs ++ b)) || hasSubstrChars (cs ++ b) needle) = true
    rw [Bool.or_eq_true]
    right
    exact ih

/-- The message thrown by `getPublicKey` for an unknown `kid` contains the
substring `not found` for every `kid`. -/
lemma notFound_msg_includes (kid : String) :
    jsIncludes ("Key with kid \"" ++ kid ++ "\" not found in JWKS") "not found" = true := by
  unfold jsIncludes
  rw [String.data_append, String.data_append]
  apply hasSubstrChars_append_right
  decide

lemma classifyKeyError_notFound (kid : String) :
    classifyKeyError kid ("Key with kid \"" ++ kid ++ "\" not found in JWKS") =
      { message := "Key \"" ++ kid ++ "\" not found in JWKS"
        code := .KEY_NOT_FOUND } := by
  unfold classifyKeyError
  rw [notFound_msg_includes]
  simp

lemma classifyKeyError_other (kid m : String)
    (hm : jsIncludes m "not found" = false) :
    classifyKeyError kid m =
      { message := "Failed to fetch JWKS", code := .JWKS_FETCH_FAILED } := by
  unfold classifyKeyError
  rw [hm]
  simp

lemma classify_invalid_algorithm :
    classifyVerifyError (.jwtError "invalid algorithm") =
      { message := "Token verification failed: invalid algorithm"
        code := .TOKEN_INVALID_SIGNATURE } := by decide

lemma classify_invalid_signature :
    classifyVerifyError (.jwtError "invalid signature") =
      { message := "Invalid token signature", code := .TOKEN_INVALID_SIGNATURE } := by decide

lemma classify_expired :
    classifyVerifyError (.tokenExpired "jwt expired") =
      { message := "Token has expired", code := .TOKEN_EXPIRED } := by decide

lemma classify_bad_aud :
    classifyVerifyError (.jwtError ("jwt audience invalid. expected: " ++ AUTH_CONFIG.WIDGET_API_AUDIENCE)) =
      { message := "Invalid audience. Expected: " ++ AUTH_CONFIG.WIDGET_API_AUDIENCE
        code := .TOKEN_INVALID_AUDIENCE } := by decide

lemma classify_bad_iss :
    classifyVerifyError (.jwtError ("jwt issuer invalid. expected: " ++ AUTH_CONFIG.ISSUER)) =
      { message := "Invalid issuer. Expected: " ++ AUTH_CONFIG.ISSUER
        code := .TOKEN_INVALID_ISSUER } := by decide

/-- Key lookup against a fresh cached set that lacks `kid`: the not-found
message is thrown with zero fetches performed. -/
lemma getPublicKey_miss_fresh (kid : String) (cache : JWKSCache) (nowMs : Int)
    (net : FetchOutcome) (jwks : JWKS)
    (hj : cache.jwks = some jwks) (ht : nowMs - cache.fetchedAt < cache.ttlMs)
    (hall : jwks.keys.all (fun k => decide (k.kid ≠ kid)) = true) :
    getPublicKey kid cache nowMs net =
      (Except.error ("Key with kid \"" ++ kid ++ "\" not found in JWKS"), cache, 0) := by
  unfold getPublicKey
  rw [fetchJWKS_of_fresh cache nowMs net jwks hj ht]
  have hfind : jwks.keys.find? (fun k => k.kid = kid) = none := by
    rw [List.find?_eq_none]
    intro k hk
    have := List.all_eq_true.mp hall k hk
    simpa using this
  simp [hfind]

/-- A failing refresh propagates the thrown message out of `getPublicKey`,
with the cache unchanged and one fetch performed. -/
lemma getPublicKey_fetch_error (kid : String) (cache : JWKSCache) (nowMs : Int)
    (net : FetchOutcome) (m : String)
    (hstale : cacheIsFresh cache nowMs = false)
    (hfail : (fetchFresh cache nowMs net).1 = Except.error m) :
    getPublicKey kid cache nowMs net = (Except.error m, cache, 1) := by
  unfold getPublicKey
  rw [fetchJWKS_of_not_fresh cache nowMs net hstale,
    fetchFresh_error cache nowMs net m hfail]

/-- Composition: a token with a truthy `kid` whose key resolution throws
message `m` fails with the message-classified error. -/
lemma verifyAccessToken_keyError (h : TokenHeader) (p : TokenPayload)
    (sig : JwsSignature) (cache : JWKSCache) (nowMs : Int) (net : FetchOutcome)
    (kid m : String) (c : JWKSCache) (fc : Nat)
    (hkid : h.kid = some kid) (hk : kid ≠ "")
    (hres : getPublicKey kid cache nowMs net = (Except.error m, c, fc)) :
    verifyAccessToken (.jws h p sig) cache nowMs net =
      (Except.error (classifyKeyError kid m), c, fc) := by
  rw [verifyAccessToken_jws h p sig cache nowMs net
    (by rw [hkid]; exact isFalsyKid_false hk)]
  rw [hkid]
  simp only [Option.getD_some]
  rw [hres]

/-- Composition: a token with a truthy `kid` whose key resolution succeeds
is handed to `jwt.verify` with the resolved PEM key. -/
lemma verifyAccessToken_resolved (h : TokenHeader) (p : TokenPayload)
    (sig : JwsSignature) (cache : JWKSCache) (nowMs : Int) (net : FetchOutcome)
    (kid : String) (pem : PemKey) (c : JWKSCache) (fc : Nat)
    (hkid : h.kid = some kid) (hk : kid ≠ "")
    (hres : getPublicKey kid cache nowMs net = (Except.ok pem, c, fc)) :
    verifyAccessToken (.jws h p sig) cache nowMs net =
      (match jwtVerify (.jws h p sig) pem AUTH_CONFIG.ISSUER
          AUTH_CONFIG.WIDGET_API_AUDIENCE (Int.ediv nowMs 1000) with
       | Except.ok q => (Except.ok q, c, fc)
       | Except.error e => (Except.error (classifyVerifyError e), c, fc)) := by
  rw [verifyAccessToken_jws h p sig cache nowMs net
    (by rw [hkid]; exact isFalsyKid_false hk)]
  rw [hkid]
  simp only [Option.getD_some]
  rw [hres]

/-- Composition: with the key resolved, the declared algorithm RS256 and a
verifying signature, the outcome is decided by the claims validation. -/
lemma verifyAccessToken_claims (h : TokenHeader) (p : TokenPayload)
    (sig : JwsSignature) (cache : JWKSCache) (nowMs : Int) (net : FetchOutcome)
    (kid : String) (pem : PemKey) (c : JWKSCache) (fc : Nat)
    (hkid : h.kid = some kid) (hk : kid ≠ "")
    (hres : getPublicKey kid cache nowMs net = (Except.ok pem, c, fc))
    (halg : h.alg = some "RS256") (hsig : rs256Verify pem h p sig = true) :
    verifyAccessToken (.jws h p sig) cache nowMs net =
      (match validateClaims p AUTH_CONFIG.ISSUER AUTH_CONFIG.WIDGET_API_AUDIENCE
          (Int.ediv nowMs 1000) with
       | Except.ok q => (Except.ok q, c, fc)
       | Except.error e => (Except.error (classifyVerifyError e), c, fc)) := by
  rw [verifyAccessToken_resolved h p sig cache nowMs net kid pem c fc hkid hk hres]
  rw [jwtVerify_valid_sig h p sig pem AUTH_CONFIG.ISSUER
    AUTH_CONFIG.WIDGET_API_AUDIENCE (Int.ediv nowMs 1000) halg hsig]

/-- The key-resolution classifier never yields TOKEN_MALFORMED. -/
lemma classifyKeyError_code (kid m : String) :
    (classifyKeyError kid m).code = VerifyErrorCode.KEY_NOT_FOUND ∨
    (classifyKeyError kid m).code = VerifyErrorCode.JWKS_FETCH_FAILED := by
  unfold classifyKeyError
  split <;> simp

/-- The `jwt.verify` error classifier never yields TOKEN_MALFORMED. -/
lemma classifyVerifyError_ne_malformed (e : JwtVerifyError) :
    (classifyVerifyError e).code ≠ VerifyErrorCode.TOKEN_MALFORMED := by
  cases e with
  | tokenExpired m => simp [classifyVerifyError]
  | jwtError m =>
    simp only [classifyVerifyError]
    split
    · simp
    · split
      · simp
      · split
        · simp
        · simp

/-!
The claim theorems.
-/

/-- C6, counterexample: against a fresh cached key set that does not
contain the requested kid, `getPublicKey` (through `verifyAccessToken`)
declares the failure with ZERO fetches performed — no refresh happens
before KEY_NOT_FOUND, contrary to the claim that a kid missing from a
fresh cached KeySet triggers a refresh before the failure is declared
(here the network would even have answered successfully). -/
theorem C6_counterexample :
    verifyAccessToken
        (.jws otherKidHeader validPayload (signedDemo otherKidHeader validPayload))
        freshCache tNow netOkDemo
      = (Except.error { message := "Key \"other-key\" not found in JWKS"
                        code := .KEY_NOT_FOUND }, freshCache, 0)
    ∧ freshCache.jwks = some DEMO_JWKS
    ∧ DEMO_JWKS.keys.all (fun k => decide (k.kid ≠ "other-key")) = true
    ∧ cacheIsFresh freshCache tNow = true :=
  ⟨rfl, rfl, by decide, by decide⟩

/-- C6, amended: `getPublicKey` refreshes exactly when the cached key set
is absent or stale (one fetch), and never on a mere kid miss (zero
fetches); a kid missing from a fresh cached key set fails KEY_NOT_FOUND
immediately, without any refresh. -/
theorem C6_single_refresh_policy :
    (∀ (kid : String) (cache : JWKSCache) (nowMs : Int) (net : FetchOutcome),
      (getPublicKey kid cache nowMs net).2.2 =
        if cacheIsFresh cache nowMs then 0 else 1)
    ∧ (∀ (h : TokenHeader) (p : TokenPayload) (sig : JwsSignature)
          (cache : JWKSCache) (nowMs : Int) (net : FetchOutcome)
          (kid : String) (jwks : JWKS),
        h.kid = some kid → kid ≠ "" →
        cache.jwks = some jwks → nowMs - cache.fetchedAt < cache.ttlMs →
        jwks.keys.all (fun k => decide (k.kid ≠ kid)) = true →
        verifyAccessToken (.jws h p sig) cache nowMs net =
          (Except.error { message := "Key \"" ++ kid ++ "\" not found in JWKS"
                          code := .KEY_NOT_FOUND }, cache, 0)) := by
  constructor
  · exact getPublicKey_fetchCount
  · intro h p sig cache nowMs net kid jwks hkid hk hj ht hall
    rw [verifyAccessToken_jws h p sig cache nowMs net
      (by rw [hkid]; exact isFalsyKid_false hk)]
    rw [hkid]
    simp only [Option.getD_some]
    rw [getPublicKey_miss_fresh kid cache nowMs net jwks hj ht hall]
    simp [classifyKeyError_notFound]

/-- C6, witness for the amended theorem. -/
theorem C6_witness :
    verifyAccessToken
        (.jws otherKidHeader validPayload (signedDemo otherKidHeader validPayload))
        freshCache tNow netDown
      = (Except.error { message := "Key \"other-key\" not found in JWKS"
                        code := .KEY_NOT_FOUND }, freshCache, 0) :=
  C6_single_refresh_policy.2 otherKidHeader validPayload
    (signedDemo otherKidHeader validPayload) freshCache tNow netDown
    "other-key" DEMO_JWKS rfl (by decide) rfl (by decide) (by decide)

/-- C7, counterexample: the cached key set is stale but contains the
requested kid; the refresh fetch fails; verification fails with
JWKS_FETCH_FAILED instead of succeeding from the stale data — the code
has no stale-data fallback, contrary to the claim. -/
theorem C7_counterexample :
    verifyAccessToken
        (.jws demoHeader validPayload (signedDemo demoHeader validPayload))
        staleCache tNow netDown
      = (Except.error { message := "Failed to fetch JWKS"
                        code := .JWKS_FETCH_FAILED }, staleCache, 1)
    ∧ staleCache.jwks = some DEMO_JWKS
    ∧ DEMO_JWKS.keys.any (fun k => decide (k.kid = "demo-key-1")) = true :=
  ⟨rfl, rfl, by decide⟩

/-- C7, amended: when the refresh fetch fails (with a thrown message not
containing `not found`), verification fails with JWKS_FETCH_FAILED for
EVERY kid — both kids present in and kids absent from the stale cached
set — and the stale data is never used as a fallback. -/
theorem C7_no_stale_fallback (h : TokenHeader) (p : TokenPayload)
    (sig : JwsSignature) (cache : JWKSCache) (nowMs : Int) (net : FetchOutcome)
    (kid m : String)
    (hkid : h.kid = some kid) (hk : kid ≠ "")
    (hstale : cacheIsFresh cache nowMs = false)
    (hfail : (fetchFresh cache nowMs net).1 = Except.error m)
    (hmsg : jsIncludes m "not found" = false) :
    verifyAccessToken (.jws h p sig) cache nowMs net =
      (Except.error { message := "Failed to fetch JWKS"
                      code := .JWKS_FETCH_FAILED }, cache, 1) := by
  rw [verifyAccessToken_jws h p sig cache nowMs net
    (by rw [hkid]; exact isFalsyKid_false hk)]
  rw [hkid]
  simp only [Option.getD_some]
  rw [getPublicKey_fetch_error kid cache nowMs net m hstale hfail]
  simp [classifyKeyError_other kid m hmsg]

/-- C7, witness. -/
theorem C7_witness :
    verifyAccessToken
        (.jws demoHeader validPayload (signedDemo demoHeader validPayload))
        staleCache tNow netDown
      = (Except.error { message := "Failed to fetch JWKS"
                        code := .JWKS_FETCH_FAILED }, staleCache, 1) :=
  C7_no_stale_fallback demoHeader validPayload
    (signedDemo demoHeader validPayload) staleCache tNow netDown
    "demo-key-1" "fetch failed" rfl (by decide) (by decide) rfl (by decide)

/-- C8, counterexample: a failed refresh (non-2xx response) does leave the
cache untouched, but when the thrown message happens to contain
`not found` (here via the server-controlled status text of a 503), the
verification failure is reported as KEY_NOT_FOUND, not JWKS_FETCH_FAILED
as the claim states for every fetch failure. -/
theorem C8_counterexample :
    verifyAccessToken
        (.jws demoHeader validPayload (signedDemo demoHeader validPayload))
        staleCache tNow
        (.response false 503 "backend not found" (Except.ok DEMO_JWKS))
      = (Except.error { message := "Key \"demo-key-1\" not found in JWKS"
                        code := .KEY_NOT_FOUND }, staleCache, 1)
    ∧ VerifyErrorCode.KEY_NOT_FOUND ≠ VerifyErrorCode.JWKS_FETCH_FAILED :=
  ⟨rfl, by decide⟩

/-- C8, amended: whenever the JWKS fetch fails (network error, non-2xx
status, or malformed JSON), the cached snapshot — key set and fetchedAt
together — is left exactly as it was (never partially updated), exactly
one fetch is counted, and the verification error is the message-based
classification: JWKS_FETCH_FAILED whenever the thrown message does not
contain `not found` (as is the case for network errors, JSON parse errors
and standard capitalized HTTP reason phrases), KEY_NOT_FOUND otherwise. -/
theorem C8_failed_refresh_atomicity :
    (∀ (cache : JWKSCache) (nowMs : Int) (net : FetchOutcome) (m : String),
      (fetchFresh cache nowMs net).1 = Except.error m →
      fetchFresh cache nowMs net = (Except.error m, cache, 1))
    ∧ (∀ (h : TokenHeader) (p : TokenPayload) (sig : JwsSignature)
          (cache : JWKSCache) (nowMs : Int) (net : FetchOutcome) (kid m : String),
        h.kid = some kid → kid ≠ "" →
        cacheIsFresh cache nowMs = false →
        (fetchFresh cache nowMs net).1 = Except.error m →
        verifyAccessToken (.jws h p sig) cache nowMs net =
          (Except.error (classifyKeyError kid m), cache, 1))
    ∧ (∀ (kid m : String), jsIncludes m "not found" = false →
        (classifyKeyError kid m).code = VerifyErrorCode.JWKS_FETCH_FAILED) := by
  refine ⟨fetchFresh_error, ?_, ?_⟩
  · intro h p sig cache nowMs net kid m hkid hk hstale hfail
    rw [verifyAccessToken_jws h p sig cache nowMs net
      (by rw [hkid]; exact isFalsyKid_false hk)]
    rw [hkid]
    simp only [Option.getD_some]
    rw [getPublicKey_fetch_error kid cache nowMs net m hstale hfail]
  · intro kid m hm
    rw [classifyKeyError_other kid m hm]

/-- C8, witness (malformed-JSON refresh failure against the empty initial
cache: error surfaced as JWKS_FETCH_FAILED, cache left untouched). -/
theorem C8_witness :
    verifyAccessToken
        (.jws demoHeader validPayload (signedDemo demoHeader validPayload))
        initialJwksCache tNow
        (.response true 200 "OK" (Except.error "Unexpected end of JSON input"))
      = (Except.error (classifyKeyError "demo-key-1" "Unexpected end of JSON input"),
          initialJwksCache, 1)
    ∧ fetchFresh initialJwksCache tNow
        (.response true 200 "OK" (Except.error "Unexpected end of JSON input"))
      = (Except.error "Unexpected end of JSON input", initialJwksCache, 1) :=
  ⟨C8_failed_refresh_atomicity.2.1 demoHeader validPayload
      (signedDemo demoHeader validPayload) initialJwksCache tNow
      (.response true 200 "OK" (Except.error "Unexpected end of JSON input"))
      "demo-key-1" "Unexpected end of JSON input" rfl (by decide) (by decide) rfl,
    C8_failed_refresh_atomicity.1 initialJwksCache tNow
      (.response true 200 "OK" (Except.error "Unexpected end of JSON input"))
      "Unexpected end of JSON input" rfl⟩

/-- C9: TTL caching law. The default TTL is 3600 seconds (3600000 ms);
while a cached key set is present and `now - fetchedAt < ttl`, a call is
served the cached set with zero fetches and no cache change; a call with
an absent or stale cache performs exactly one fetch, and a successful
refresh replaces the cached snapshot with the fetched set stamped at the
fetch time. -/
theorem C9_ttl_caching :
    initialJwksCache.ttlMs = 3600 * 1000
    ∧ (∀ (cache : JWKSCache) (nowMs : Int) (net : FetchOutcome) (jwks : JWKS),
        cache.jwks = some jwks → nowMs - cache.fetchedAt < cache.ttlMs →
        fetchJWKS cache nowMs net = (Except.ok jwks, cache, 0))
    ∧ (∀ (kid : String) (cache : JWKSCache) (nowMs : Int) (net : FetchOutcome),
        (getPublicKey kid cache nowMs net).2.2 =
          if cacheIsFresh cache nowMs then 0 else 1)
    ∧ (∀ (cache : JWKSCache) (nowMs : Int) (net : FetchOutcome) (jwks : JWKS),
        (fetchFresh cache nowMs net).1 = Except.ok jwks →
        fetchFresh cache nowMs net =
          (Except.ok jwks, { cache with jwks := some jwks, fetchedAt := nowMs }, 1)) :=
  ⟨rfl, fetchJWKS_of_fresh, getPublicKey_fetchCount, fetchFresh_ok⟩

/-- C9, witness: a second call 3599.999 s after the fetch instant is
served from the cache with zero fetches; a call on the stale cache counts
exactly one fetch. -/
theorem C9_witness :
    fetchJWKS freshCache (tNow + 3599999) netDown = (Except.ok DEMO_JWKS, freshCache, 0)
    ∧ (getPublicKey "demo-key-1" staleCache tNow netOkDemo).2.2 = 1 :=
  ⟨C9_ttl_caching.2.1 freshCache (tNow + 3599999) netDown DEMO_JWKS rfl (by decide),
    by rw [C9_ttl_caching.2.2.1 "demo-key-1" staleCache tNow netOkDemo]; decide⟩

/-- C10: when key resolution throws, `verifyAccessToken` chooses the error
code solely from the thrown message text: KEY_NOT_FOUND exactly when the
message contains the substring `not found`, and JWKS_FETCH_FAILED in every
other case — so a fetch failure whose message happens to contain
`not found` is reported as KEY_NOT_FOUND rather than JWKS_FETCH_FAILED. -/
theorem C10_key_error_dispatch :
    (∀ (h : TokenHeader) (p : TokenPayload) (sig : JwsSignature)
        (cache : JWKSCache) (nowMs : Int) (net : FetchOutcome)
        (kid m : String) (c : JWKSCache) (fc : Nat),
      h.kid = some kid → kid ≠ "" →
      getPublicKey kid cache nowMs net = (Except.error m, c, fc) →
      verifyAccessToken (.jws h p sig) cache nowMs net =
        (Except.error (classifyKeyError kid m), c, fc))
    ∧ (∀ (kid m : String), jsIncludes m "not found" = true →
        classifyKeyError kid m =
          { message := "Key \"" ++ kid ++ "\" not found in JWKS"
            code := .KEY_NOT_FOUND })
    ∧ (∀ (kid m : String), jsIncludes m "not found" = false →
        classifyKeyError kid m =
          { message := "Failed to fetch JWKS", code := .JWKS_FETCH_FAILED }) := by
  refine ⟨?_, ?_, ?_⟩
  · intro h p sig cache nowMs net kid m c fc hkid hk hres
    rw [verifyAccessToken_jws h p sig cache nowMs net
      (by rw [hkid]; exact isFalsyKid_false hk)]
    rw [hkid]
    simp only [Option.getD_some]
    rw [hres]
  · intro kid m hm
    unfold classifyKeyError
    rw [hm]
    simp
  · intro kid m hm
    unfold classifyKeyError
    rw [hm]
    simp

/-- C10, witness: a 404 whose status text is the lowercase `not found`
makes the thrown fetch message contain `not found`, and the failure is
reported as KEY_NOT_FOUND. -/
theorem C10_witness :
    verifyAccessToken
        (.jws demoHeader validPayload (signedDemo demoHeader validPayload))
        staleCache tNow (.response false 404 "not found" (Except.ok DEMO_JWKS))
      = (Except.error { message := "Key \"demo-key-1\" not found in JWKS"
                        code := .KEY_NOT_FOUND }, staleCache, 1) := by
  rw [C10_key_error_dispatch.1 demoHeader validPayload
    (signedDemo demoHeader validPayload) staleCache tNow
    (.response false 404 "not found" (Except.ok DEMO_JWKS))
    "demo-key-1" "Failed to fetch JWKS: 404 not found" staleCache 1
    rfl (by decide) (by rfl)]
  rw [C10_key_error_dispatch.2.1 "demo-key-1" "Failed to fetch JWKS: 404 not found"
    (by decide)]
  rfl

/-- C1, counterexample: a token correctly signed with the private key of
the JWK resolved by its kid, with the configured issuer, an audience
containing the configured audience and a future exp, is nevertheless
rejected when its `nbf` claim lies in the future: `jsonwebtoken` also
validates `nbf`, which the claim does not account for (the failure
surfaces as TOKEN_INVALID_SIGNATURE through the message fall-through). -/
theorem C1_counterexample :
    nbfPayload.iss = some AUTH_CONFIG.ISSUER
    ∧ audMatches nbfPayload.aud AUTH_CONFIG.WIDGET_API_AUDIENCE = true
    ∧ nbfPayload.exp = some (Int.ediv tNow 1000 + 3600)
    ∧ rs256Verify (jwkToPem DEMO_JWK) demoHeader nbfPayload
        (signedDemo demoHeader nbfPayload) = true
    ∧ verifyAccessToken
        (.jws demoHeader nbfPayload (signedDemo demoHeader nbfPayload))
        freshCache tNow netDown
      = (Except.error { message := "Token verification failed: jwt not active"
                        code := .TOKEN_INVALID_SIGNATURE }, freshCache, 0) :=
  ⟨rfl, by decide, by decide, by decide, rfl⟩

/-- C1, amended round-trip law: for every token RS256-signed with the
private key matching the JWK that key resolution returns for the header
kid, whose iss equals the configured issuer, whose aud contains the
configured audience, whose exp is present and in the future, AND whose
nbf (if present) is not in the future, `verifyAccessToken` succeeds and
returns the signed payload verbatim — every other payload field passes
through untouched. -/
theorem C1_signed_roundtrip (h : TokenHeader) (p : TokenPayload)
    (cache : JWKSCache) (nowMs : Int) (net : FetchOutcome)
    (kid : String) (jwk : RSAPublicJWK) (c : JWKSCache) (fc : Nat)
    (hkid : h.kid = some kid) (hk : kid ≠ "") (halg : h.alg = some "RS256")
    (hres : getPublicKey kid cache nowMs net = (Except.ok (jwkToPem jwk), c, fc))
    (hnbf : nbfRejects p (Int.ediv nowMs 1000) = false)
    (hexp : ∃ e, p.exp = some e ∧ Int.ediv nowMs 1000 < e)
    (hiss : p.iss = some AUTH_CONFIG.ISSUER)
    (haud : audMatches p.aud AUTH_CONFIG.WIDGET_API_AUDIENCE = true) :
    verifyAccessToken (.jws h p (.rs256 jwk.n jwk.e h p)) cache nowMs net =
      (Except.ok p, c, fc) := by
  have hexpR : expRejects p (Int.ediv nowMs 1000) = false := by
    rcases hexp with ⟨e, he, hlt⟩
    simp [expRejects, he]
    omega
  rw [verifyAccessToken_claims h p (.rs256 jwk.n jwk.e h p) cache nowMs net kid
    (jwkToPem jwk) c fc hkid hk hres halg (by simp [rs256Verify, jwkToPem])]
  rw [validateClaims_ok p AUTH_CONFIG.ISSUER AUTH_CONFIG.WIDGET_API_AUDIENCE
    (Int.ediv nowMs 1000) hnbf hexpR haud hiss]

/-- C1, witness: the demo-signed token round-trips. -/
theorem C1_witness :
    verifyAccessToken
        (.jws demoHeader validPayload (signedDemo demoHeader validPayload))
        freshCache tNow netDown
      = (Except.ok validPayload, freshCache, 0) :=
  C1_signed_roundtrip demoHeader validPayload freshCache tNow netDown
    "demo-key-1" DEMO_JWK freshCache 0 rfl (by decide) rfl (by rfl) (by decide)
    ⟨tNowS + 3600, rfl, by decide⟩ rfl (by decide)

/-- C2: only alg RS256 is accepted. A token declaring any other algorithm
(HS256, none, or an absent alg) is never accepted; when its key resolves,
it is rejected with TOKEN_INVALID_SIGNATURE (the `invalid algorithm`
message falls through the message dispatch to that code), and the
declared algorithm is never used to select a different verification
method — the whitelist check precedes any cryptography. -/
theorem C2_rs256_only :
    (∀ (h : TokenHeader) (p : TokenPayload) (sig : JwsSignature)
        (cache : JWKSCache) (nowMs : Int) (net : FetchOutcome) (q : TokenPayload),
      h.alg ≠ some "RS256" →
      (verifyAccessToken (.jws h p sig) cache nowMs net).1 ≠ Except.ok q)
    ∧ (∀ (h : TokenHeader) (p : TokenPayload) (sig : JwsSignature)
          (cache : JWKSCache) (nowMs : Int) (net : FetchOutcome)
          (kid : String) (pem : PemKey) (c : JWKSCache) (fc : Nat),
        h.kid = some kid → kid ≠ "" → h.alg ≠ some "RS256" →
        getPublicKey kid cache nowMs net = (Except.ok pem, c, fc) →
        verifyAccessToken (.jws h p sig) cache nowMs net =
          (Except.error { message := "Token verification failed: invalid algorithm"
                          code := .TOKEN_INVALID_SIGNATURE }, c, fc)) := by
  constructor
  · intro h p sig cache nowMs net q halg hcontra
    cases hfk : isFalsyKid h.kid with
    | true =>
      unfold verifyAccessToken at hcontra
      simp [jwtDecode, hfk] at hcontra
    | false =>
      cases hkd : h.kid with
      | none => rw [hkd] at hfk; simp [isFalsyKid] at hfk
      | some s =>
        rw [hkd] at hfk
        have hs : s ≠ "" := by simpa [isFalsyKid] using hfk
        rcases hgp : getPublicKey s cache nowMs net with ⟨res, c, fc⟩
        cases res with
        | error m =>
          rw [verifyAccessToken_keyError h p sig cache nowMs net s m c fc hkd hs hgp]
            at hcontra
          simp at hcontra
        | ok pem =>
          rw [verifyAccessToken_resolved h p sig cache nowMs net s pem c fc hkd hs hgp]
            at hcontra
          rw [jwtVerify_bad_alg h p sig pem AUTH_CONFIG.ISSUER
            AUTH_CONFIG.WIDGET_API_AUDIENCE (Int.ediv nowMs 1000) halg] at hcontra
          simp at hcontra
  · intro h p sig cache nowMs net kid pem c fc hkid hk halg hres
    rw [verifyAccessToken_resolved h p sig cache nowMs net kid pem c fc hkid hk hres]
    rw [jwtVerify_bad_alg h p sig pem AUTH_CONFIG.ISSUER
      AUTH_CONFIG.WIDGET_API_AUDIENCE (Int.ediv nowMs 1000) halg]
    rfl

/-- C2, witness: the HS256-declared token is rejected with
TOKEN_INVALID_SIGNATURE. -/
theorem C2_witness :
    verifyAccessToken
        (.jws hs256Header validPayload (signedDemo hs256Header validPayload))
        freshCache tNow netDown
      = (Except.error { message := "Token verification failed: invalid algorithm"
                        code := .TOKEN_INVALID_SIGNATURE }, freshCache, 0) :=
  C2_rs256_only.2 hs256Header validPayload (signedDemo hs256Header validPayload)
    freshCache tNow netDown "demo-key-1" (jwkToPem DEMO_JWK) freshCache 0
    rfl (by decide) (by decide) (by rfl)

/-- C3, counterexample: a correctly signed, unexpired token whose iss and
aud are BOTH wrong fails with TOKEN_INVALID_AUDIENCE, not
TOKEN_INVALID_ISSUER — `jsonwebtoken` validates the audience before the
issuer, the reverse of the order the claim states. -/
theorem C3_counterexample :
    rs256Verify (jwkToPem DEMO_JWK) demoHeader bothWrongPayload
        (signedDemo demoHeader bothWrongPayload) = true
    ∧ expRejects bothWrongPayload (Int.ediv tNow 1000) = false
    ∧ bothWrongPayload.iss ≠ some AUTH_CONFIG.ISSUER
    ∧ audMatches bothWrongPayload.aud AUTH_CONFIG.WIDGET_API_AUDIENCE = false
    ∧ verifyAccessToken
        (.jws demoHeader bothWrongPayload (signedDemo demoHeader bothWrongPayload))
        freshCache tNow netDown
      = (Except.error { message := "Invalid audience. Expected: https://widget-api.local/"
                        code := .TOKEN_INVALID_AUDIENCE }, freshCache, 0)
    ∧ VerifyErrorCode.TOKEN_INVALID_AUDIENCE ≠ VerifyErrorCode.TOKEN_INVALID_ISSUER :=
  ⟨by decide, by decide, by decide, by decide, rfl, by decide⟩

/-- C3, amended: claims validation runs only after signature success (a
failing signature yields TOKEN_INVALID_SIGNATURE and no claims check),
and then first failing check wins, in the order exp (TOKEN_EXPIRED), aud
(TOKEN_INVALID_AUDIENCE), iss (TOKEN_INVALID_ISSUER) — each failure one
exact code, never an aggregation; a signed unexpired token with iss and
aud both wrong fails TOKEN_INVALID_AUDIENCE. (Hypotheses also require the
nbf claim, if present, to have passed, since the library checks it before
exp.) -/
theorem C3_claims_order :
    (∀ (h : TokenHeader) (p : TokenPayload) (sig : JwsSignature)
        (cache : JWKSCache) (nowMs : Int) (net : FetchOutcome)
        (kid : String) (pem : PemKey) (c : JWKSCache) (fc : Nat),
      h.kid = some kid → kid ≠ "" → h.alg = some "RS256" →
      getPublicKey kid cache nowMs net = (Except.ok pem, c, fc) →
      rs256Verify pem h p sig = false →
      verifyAccessToken (.jws h p sig) cache nowMs net =
        (Except.error { message := "Invalid token signature"
                        code := .TOKEN_INVALID_SIGNATURE }, c, fc))
    ∧ (∀ (h : TokenHeader) (p : TokenPayload) (sig : JwsSignature)
          (cache : JWKSCache) (nowMs : Int) (net : FetchOutcome)
          (kid : String) (pem : PemKey) (c : JWKSCache) (fc : Nat),
        h.kid = some kid → kid ≠ "" → h.alg = some "RS256" →
        getPublicKey kid cache nowMs net = (Except.ok pem, c, fc) →
        rs256Verify pem h p sig = true →
        nbfRejects p (Int.ediv nowMs 1000) = false →
        (expRejects p (Int.ediv nowMs 1000) = true →
          verifyAccessToken (.jws h p sig) cache nowMs net =
            (Except.error { message := "Token has expired", code := .TOKEN_EXPIRED },
              c, fc))
        ∧ (expRejects p (Int.ediv nowMs 1000) = false →
            audMatches p.aud AUTH_CONFIG.WIDGET_API_AUDIENCE = false →
            verifyAccessToken (.jws h p sig) cache nowMs net =
              (Except.error { message := "Invalid audience. Expected: "
                                ++ AUTH_CONFIG.WIDGET_API_AUDIENCE
                              code := .TOKEN_INVALID_AUDIENCE }, c, fc))
        ∧ (expRejects p (Int.ediv nowMs 1000) = false →
            audMatches p.aud AUTH_CONFIG.WIDGET_API_AUDIENCE = true →
            p.iss ≠ some AUTH_CONFIG.ISSUER →
            verifyAccessToken (.jws h p sig) cache nowMs net =
              (Except.error { message := "Invalid issuer. Expected: "
                                ++ AUTH_CONFIG.ISSUER
                              code := .TOKEN_INVALID_ISSUER }, c, fc))) := by
  constructor
  · intro h p sig cache nowMs net kid pem c fc hkid hk halg hres hsig
    rw [verifyAccessToken_resolved h p sig cache nowMs net kid pem c fc hkid hk hres]
    rw [jwtVerify_bad_sig h p sig pem AUTH_CONFIG.ISSUER
      AUTH_CONFIG.WIDGET_API_AUDIENCE (Int.ediv nowMs 1000) halg hsig]
    rfl
  · intro h p sig cache nowMs net kid pem c fc hkid hk halg hres hsig hnbf
    refine ⟨fun hexp => ?_, fun hexp haud => ?_, fun hexp haud hiss => ?_⟩
    · rw [verifyAccessToken_claims h p sig cache nowMs net kid pem c fc
        hkid hk hres halg hsig]
      rw [validateClaims_expired p AUTH_CONFIG.ISSUER
        AUTH_CONFIG.WIDGET_API_AUDIENCE (Int.ediv nowMs 1000) hnbf hexp]
      rfl
    · rw [verifyAccessToken_claims h p sig cache nowMs net kid pem c fc
        hkid hk hres halg hsig]
      rw [validateClaims_bad_aud p AUTH_CONFIG.ISSUER
        AUTH_CONFIG.WIDGET_API_AUDIENCE (Int.ediv nowMs 1000) hnbf hexp haud]
      rfl
    · rw [verifyAccessToken_claims h p sig cache nowMs net kid pem c fc
        hkid hk hres halg hsig]
      rw [validateClaims_bad_iss p AUTH_CONFIG.ISSUER
        AUTH_CONFIG.WIDGET_API_AUDIENCE (Int.ediv nowMs 1000) hnbf hexp haud hiss]
      rfl

/-- C3, witness: the both-wrong token instantiates the audience branch of
the amended ordering. -/
theorem C3_witness :
    verifyAccessToken
        (.jws demoHeader bothWrongPayload (signedDemo demoHeader bothWrongPayload))
        freshCache tNow netDown
      = (Except.error { message := "Invalid audience. Expected: "
                          ++ AUTH_CONFIG.WIDGET_API_AUDIENCE
                        code := .TOKEN_INVALID_AUDIENCE }, freshCache, 0) :=
  ((C3_claims_order.2 demoHeader bothWrongPayload
      (signedDemo demoHeader bothWrongPayload) freshCache tNow netDown
      "demo-key-1" (jwkToPem DEMO_JWK) freshCache 0
      rfl (by decide) rfl (by rfl) (by decide) (by decide)).2.1
    (by decide) (by decide))

/-- C4, counterexample: a token lacking an exp claim does NOT fail with
TOKEN_EXPIRED — `jsonwebtoken` skips the expiry check when exp is absent,
and this otherwise-valid token verifies successfully. -/
theorem C4_counterexample :
    noExpPayload.exp = none
    ∧ verifyAccessToken
        (.jws demoHeader noExpPayload (signedDemo demoHeader noExpPayload))
        freshCache tNow netDown
      = (Except.ok noExpPayload, freshCache, 0) :=
  ⟨rfl, rfl⟩

/-- C4, amended: when exp is present it must be strictly greater than the
current time (tolerance 0): exp ≤ now — in particular exp = now − 1 —
fails with TOKEN_EXPIRED; when the expiry check passes (exp in the
future, e.g. exp = now + 1, or exp absent) the result is never
TOKEN_EXPIRED. A token lacking exp skips the check entirely rather than
failing. -/
theorem C4_expiry_boundary :
    (∀ (h : TokenHeader) (p : TokenPayload) (sig : JwsSignature)
        (cache : JWKSCache) (nowMs : Int) (net : FetchOutcome)
        (kid : String) (pem : PemKey) (c : JWKSCache) (fc : Nat) (e : Int),
      h.kid = some kid → kid ≠ "" → h.alg = some "RS256" →
      getPublicKey kid cache nowMs net = (Except.ok pem, c, fc) →
      rs256Verify pem h p sig = true →
      nbfRejects p (Int.ediv nowMs 1000) = false →
      p.exp = some e → e ≤ Int.ediv nowMs 1000 →
      verifyAccessToken (.jws h p sig) cache nowMs net =
        (Except.error { message := "Token has expired", code := .TOKEN_EXPIRED }, c, fc))
    ∧ (∀ (h : TokenHeader) (p : TokenPayload) (sig : JwsSignature)
          (cache : JWKSCache) (nowMs : Int) (net : FetchOutcome)
          (kid : String) (pem : PemKey) (c : JWKSCache) (fc : Nat),
        h.kid = some kid → kid ≠ "" → h.alg = some "RS256" →
        getPublicKey kid cache nowMs net = (Except.ok pem, c, fc) →
        rs256Verify pem h p sig = true →
        nbfRejects p (Int.ediv nowMs 1000) = false →
        expRejects p (Int.ediv nowMs 1000) = false →
        resultCode (verifyAccessToken (.jws h p sig) cache nowMs net).1 ≠
          some VerifyErrorCode.TOKEN_EXPIRED) := by
  constructor
  · intro h p sig cache nowMs net kid pem c fc e hkid hk halg hres hsig hnbf he hle
    rw [verifyAccessToken_claims h p sig cache nowMs net kid pem c fc
      hkid hk hres halg hsig]
    rw [validateClaims_expired p AUTH_CONFIG.ISSUER
      AUTH_CONFIG.WIDGET_API_AUDIENCE (Int.ediv nowMs 1000) hnbf
      (by simp [expRejects, he, hle])]
    rfl
  · intro h p sig cache nowMs net kid pem c fc hkid hk halg hres hsig hnbf hexp
    rw [verifyAccessToken_claims h p sig cache nowMs net kid pem c fc
      hkid hk hres halg hsig]
    cases haud : audMatches p.aud AUTH_CONFIG.WIDGET_API_AUDIENCE with
    | false =>
      rw [validateClaims_bad_aud p AUTH_CONFIG.ISSUER
        AUTH_CONFIG.WIDGET_API_AUDIENCE (Int.ediv nowMs 1000) hnbf hexp haud]
      show some (classifyVerifyError (.jwtError ("jwt audience invalid. expected: "
          ++ AUTH_CONFIG.WIDGET_API_AUDIENCE))).code ≠ some VerifyErrorCode.TOKEN_EXPIRED
      decide
    | true =>
      by_cases hiss : p.iss = some AUTH_CONFIG.ISSUER
      · rw [validateClaims_ok p AUTH_CONFIG.ISSUER
          AUTH_CONFIG.WIDGET_API_AUDIENCE (Int.ediv nowMs 1000) hnbf hexp haud hiss]
        simp [resultCode]
      · rw [validateClaims_bad_iss p AUTH_CONFIG.ISSUER
          AUTH_CONFIG.WIDGET_API_AUDIENCE (Int.ediv nowMs 1000) hnbf hexp haud hiss]
        show some (classifyVerifyError (.jwtError ("jwt issuer invalid. expected: "
            ++ AUTH_CONFIG.ISSUER))).code ≠ some VerifyErrorCode.TOKEN_EXPIRED
        decide

/-- C4, witness: exp = now − 1 yields TOKEN_EXPIRED. -/
theorem C4_witness :
    verifyAccessToken
        (.jws demoHeader expM1Payload (signedDemo demoHeader expM1Payload))
        freshCache tNow netDown
      = (Except.error { message := "Token has expired", code := .TOKEN_EXPIRED },
          freshCache, 0) :=
  C4_expiry_boundary.1 demoHeader expM1Payload
    (signedDemo demoHeader expM1Payload) freshCache tNow netDown
    "demo-key-1" (jwkToPem DEMO_JWK) freshCache 0 (tNowS - 1)
    rfl (by decide) rfl (by rfl) (by decide) (by decide) rfl (by decide)

/-- C5, counterexample: a structurally well-formed token whose decoded
header carries the string kid value "" (a present string field) is
rejected TOKEN_MALFORMED, because the code tests JavaScript falsiness of
kid, not the absence of a string kid as the claim states. -/
theorem C5_counterexample :
    emptyKidHeader.kid = some ""
    ∧ verifyAccessToken
        (.jws emptyKidHeader validPayload (signedDemo emptyKidHeader validPayload))
        freshCache tNow netDown
      = (Except.error { message := "Token header missing \"kid\" (key ID)"
                        code := .TOKEN_MALFORMED }, freshCache, 0) :=
  ⟨rfl, rfl⟩

/-- C5, amended: `verifyAccessToken` fails TOKEN_MALFORMED exactly when
the token does not decode (wrong dot-segment shape, undecodable or
unparseable header — `Token.unparseable`, the image of every string
failing `jwsShapeOk`) or the decoded header kid is falsy — absent OR the
empty string; no other path produces TOKEN_MALFORMED. -/
theorem C5_malformed_iff (t : Token) (cache : JWKSCache) (nowMs : Int)
    (net : FetchOutcome) :
    resultCode (verifyAccessToken t cache nowMs net).1 =
        some VerifyErrorCode.TOKEN_MALFORMED
      ↔ (jwtDecode t = none ∨ kidFalsy t = true) := by
  cases t with
  | unparseable raw =>
    simp [verifyAccessToken, jwtDecode, resultCode, kidFalsy]
  | jws h p sig =>
    cases hfk : isFalsyKid h.kid with
    | true =>
      unfold verifyAccessToken
      simp [jwtDecode, resultCode, kidFalsy, hfk]
    | false =>
      cases hkd : h.kid with
      | none => rw [hkd] at hfk; simp [isFalsyKid] at hfk
      | some s =>
        rw [hkd] at hfk
        have hs : s ≠ "" := by simpa [isFalsyKid] using hfk
        rcases hgp : getPublicKey s cache nowMs net with ⟨res, c, fc⟩
        cases res with
        | error m =>
          rw [verifyAccessToken_keyError h p sig cache nowMs net s m c fc hkd hs hgp]
          rcases classifyKeyError_code s m with hc | hc <;>
            simp [resultCode, hc, jwtDecode, kidFalsy, hkd, isFalsyKid, hs]
        | ok pem =>
          rw [verifyAccessToken_resolved h p sig cache nowMs net s pem c fc hkd hs hgp]
          cases hv : jwtVerify (.jws h p sig) pem AUTH_CONFIG.ISSUER
              AUTH_CONFIG.WIDGET_API_AUDIENCE (Int.ediv nowMs 1000) with
          | ok q =>
            simp [resultCode, hv, jwtDecode, kidFalsy, hkd, isFalsyKid, hs]
          | error e =>
            have hc := classifyVerifyError_ne_malformed e
            simp [resultCode, hv, jwtDecode, kidFalsy, hkd, isFalsyKid, hs, hc]

/-- C5, witness: the raw string not-a-jwt fails the JWS shape, and the
corresponding unparseable token is rejected TOKEN_MALFORMED; a decodable
token with a truthy kid is never TOKEN_MALFORMED. -/
theorem C5_witness :
    jwsShapeOk "not-a-jwt" = false
    ∧ resultCode (verifyAccessToken (.unparseable "not-a-jwt")
        freshCache tNow netDown).1 = some VerifyErrorCode.TOKEN_MALFORMED :=
  ⟨by decide,
    (C5_malformed_iff (.unparseable "not-a-jwt") freshCache tNow netDown).mpr
      (Or.inl rfl)⟩

end JwtVerifier
